import Mathlib

/-!
# A shallow embedding of the RAG server core

This file embeds the request-handling core of `main.py` together with the
contract of `embedding_service.py`.

Modelling conventions:

* The embedder (`sentence-transformers`, external to this repository) is an
  opaque function from text to a fixed-length vector; a call that raises is
  modelled by an `Except String` result carrying the exception message.
* The pgvector cosine-distance operator `<=>` is implemented by the external
  database extension, so search is parametric in a distance function
  `DistFn`.  Vectors are lists of rationals.
* Timestamps are abstract instants (`Nat`), ordered as the SQL
  `timestamptz` comparisons order them; `isoformat` is their canonical
  string rendering.
* Metadata documents are opaque structured blobs, modelled as association
  lists of string pairs; the JSON round-trip through `json.dumps`/`jsonb`
  is the identity on this model.
* A raised `HTTPException(status_code, detail)` is modelled by the
  `HTTPError` structure; a handler returns `Except HTTPError α`.
* Database row ids (the `id` column of `embedding_store`) are `Nat`;
  responses render them with `toString`, as `str(result["id"])` does.
-/

/-- Opaque metadata document (`Optional[dict]` in the source), modelled as an
association list; the store never inspects its shape. -/
abbrev Metadata := List (String × String)

/-- Embedding vector: fixed-length sequence of reals, modelled over `Rat`. -/
abbrev Vec := List Rat

/-- The embedder: `encode` either returns a vector or raises (initialization
failure or failure on the given input), carrying the exception message. -/
abbrev EncodeFn := String → Except String Vec

/-- The external cosine-distance operator `<=>` of pgvector. -/
abbrev DistFn := Vec → Vec → Rat

/-- One row of the `embedding_store` table. -/
structure EmbeddingRow where
  id : Nat
  user_id : String
  content : String
  source : Option String
  metadata : Option Metadata
  embedding : Vec
  created : Nat
deriving Repr, DecidableEq

/-- `AddContentRequest` of `main.py` (defaults as in the Pydantic model). -/
structure AddContentRequest where
  user_id : String
  content : String
  source : Option String := none
  metadata : Option Metadata := none
deriving Repr, DecidableEq

/-- `ContentResponse` of `main.py`. -/
structure ContentResponse where
  id : String
  user_id : String
  content : String
  source : Option String := none
  metadata : Option Metadata := none
  created : String
deriving Repr, DecidableEq

/-- `SearchRequest` of `main.py`; `limit` defaults to `10` as in
`Field(10, ge=1, le=100)`.  The `created_after`/`created_before` ISO strings
are modelled as the instants they denote. -/
structure SearchRequest where
  query : String
  limit : Option Nat := some 10
  user_id : Option String := none
  source : Option String := none
  distance_threshold : Option Rat := none
  created_after : Option Nat := none
  created_before : Option Nat := none
deriving Repr, DecidableEq

/-- `SearchResult` of `main.py`. -/
structure SearchResult where
  id : String
  user_id : String
  content : String
  source : Option String := none
  metadata : Option Metadata := none
  distance : Rat
  created : String
deriving Repr, DecidableEq

/-- `DeleteResponse` of `main.py`. -/
structure DeleteResponse where
  message : String
  id : String
deriving Repr, DecidableEq

/-- `HealthResponse` of `main.py`: a `status` string and a `database` string. -/
structure HealthResponse where
  status : String
  database : String
deriving Repr, DecidableEq

/-- A raised `HTTPException(status_code=..., detail=...)`. -/
structure HTTPError where
  status_code : Nat
  detail : String
deriving Repr, DecidableEq

/-- Pydantic validation of a `SearchRequest`: `limit` in `[1, 100]`,
`user_id` at most 9 characters, `source` at most 255, threshold in `[0, 2]`. -/
def validSearchRequest (req : SearchRequest) : Prop :=
  (∀ l, req.limit = some l → 1 ≤ l ∧ l ≤ 100) ∧
  (∀ u, req.user_id = some u → u.length ≤ 9) ∧
  (∀ s, req.source = some s → s.length ≤ 255) ∧
  (∀ t, req.distance_threshold = some t → 0 ≤ t ∧ t ≤ 2)

/-- The persistent state behind the handlers: the `embedding_store` table,
the id generator and the database clock assigning `created`. -/
structure StoreState where
  table : List EmbeddingRow
  nextId : Nat
  now : Nat
deriving Repr, DecidableEq

/-- Canonical rendering of a timestamp (`created.isoformat()` in the source). -/
def isoformat (t : Nat) : String := toString t

/-- Python truthiness of the optional metadata dict: `None` and the empty
dict `{}` are both falsy. -/
def metaTruthy : Option Metadata → Bool
  | none => false
  | some m => !m.isEmpty

/-- Line 128 of `main.py`:
`metadata_json = json.dumps(request.metadata) if request.metadata else None` —
a falsy metadata value (absent or empty dict) is stored as SQL `NULL`. -/
def storedMetadata (m : Option Metadata) : Option Metadata :=
  if metaTruthy m then m else none

/-- `health_check` consults only the database (it opens a connection and runs
`SELECT 1`); the embedding service does not appear in the handler, so the
response is a function of database reachability and the exception text
alone.  `ServiceEnv` records the full service condition, including the
embedder readiness the handler never reads. -/
structure ServiceEnv where
  embedderReady : Bool
  dbReachable : Bool
  dbError : String
deriving Repr, DecidableEq

/-- The `/health` handler (`main.py` lines 99-110). -/
def health_check (env : ServiceEnv) : HealthResponse :=
  if env.dbReachable then
    { status := "healthy", database := "connected" }
  else
    { status := "unhealthy", database := "error: " ++ env.dbError }

/-- The `POST /content` handler (`main.py` lines 112-153).  `encode` models
the embedding service, `dbFail` a database layer that raises with the given
message.  Any exception in the body is caught by the single
`except Exception` clause and re-raised as
`HTTPException(500, "Database error: " + str(e))`.  On success the
`RETURNING` row is converted to a `ContentResponse`. -/
def add_content (encode : EncodeFn) (dbFail : Option String)
    (req : AddContentRequest) (st : StoreState) :
    Except HTTPError ContentResponse × StoreState :=
  match encode req.content with
  | .error e => (.error ⟨500, "Database error: " ++ e⟩, st)
  | .ok vec =>
    match dbFail with
    | some e => (.error ⟨500, "Database error: " ++ e⟩, st)
    | none =>
      let row : EmbeddingRow :=
        { id := st.nextId, user_id := req.user_id, content := req.content,
          source := req.source, metadata := storedMetadata req.metadata,
          embedding := vec, created := st.now }
      (.ok { id := toString row.id, user_id := row.user_id,
             content := row.content, source := row.source,
             metadata := row.metadata, created := isoformat row.created },
       { st with table := st.table ++ [row], nextId := st.nextId + 1 })

/-- The `DELETE /content/{content_id}` handler (`main.py` lines 155-183).
`rowcount` is the number of rows the SQL `DELETE` matched; if it is zero the
handler raises `HTTPException(404, "Content not found")` without committing,
otherwise it commits the deletion. -/
def remove_content (content_id : Nat) (st : StoreState) :
    Except HTTPError DeleteResponse × StoreState :=
  let rowcount := st.table.countP (fun r => decide (r.id = content_id))
  if rowcount = 0 then
    (.error ⟨404, "Content not found"⟩, st)
  else
    (.ok { message := "Content deleted successfully", id := toString content_id },
     { st with table := st.table.filter (fun r => decide (r.id ≠ content_id)) })

/-- The dynamically composed `WHERE` filters of `search_content`
(`main.py` lines 199-217): each clause is appended only when the request
value is truthy (`if request.user_id:` etc.), so `None` and the empty string
both impose no constraint; supplied clauses are joined with `AND`. -/
def rowMatches (req : SearchRequest) (r : EmbeddingRow) : Bool :=
  (match req.user_id with
   | none => true
   | some u => if u = "" then true else decide (r.user_id = u)) &&
  (match req.source with
   | none => true
   | some s => if s = "" then true else decide (r.source = some s)) &&
  (match req.created_after with
   | none => true
   | some a => decide (a ≤ r.created)) &&
  (match req.created_before with
   | none => true
   | some b => decide (r.created ≤ b))

/-- Line 220 of `main.py`: the request threshold when supplied, otherwise the
process-wide `DEFAULT_DISTANCE_THRESHOLD`. -/
def effectiveThreshold (defaultThreshold : Rat) (req : SearchRequest) : Rat :=
  req.distance_threshold.getD defaultThreshold

/-- One row of the search `SELECT`, with the computed `distance` column. -/
def toSearchResult (dist : DistFn) (qvec : Vec) (r : EmbeddingRow) : SearchResult :=
  { id := toString r.id, user_id := r.user_id, content := r.content,
    source := r.source, metadata := r.metadata,
    distance := dist r.embedding qvec, created := isoformat r.created }

/-- SQL `LIMIT %s` with the request limit: an integer bounds the result
count; `NULL` (a `None` limit reaching the database) imposes no bound. -/
def applyLimit (limit : Option Nat) (xs : List SearchResult) : List SearchResult :=
  match limit with
  | some n => xs.take n
  | none => xs

/-- The `ORDER BY distance` comparison. -/
def resultLe (a b : SearchResult) : Bool := decide (a.distance ≤ b.distance)

/-- The SQL query of `search_content` (`main.py` lines 219-240) executed
against a table: keep rows matching every supplied filter and whose distance
to the query vector is at most the effective threshold, compute the
`distance` column, sort ascending by it (`ORDER BY distance`, stable), and
truncate to the limit (`LIMIT %s`).  Both the threshold clause and the
`distance` column use the same query vector. -/
def searchExec (dist : DistFn) (defaultThreshold : Rat) (req : SearchRequest)
    (qvec : Vec) (table : List EmbeddingRow) : List SearchResult :=
  applyLimit req.limit
    (((table.filter (fun r =>
        rowMatches req r
          && decide (dist r.embedding qvec
                ≤ effectiveThreshold defaultThreshold req))).map
      (toSearchResult dist qvec)).mergeSort resultLe)

/-- The `POST /search` handler (`main.py` lines 185-257): embed the query,
run the SQL query, and catch any exception as
`HTTPException(500, "Database error: " + str(e))`. -/
def search_content (encode : EncodeFn) (dbFail : Option String) (dist : DistFn)
    (defaultThreshold : Rat) (req : SearchRequest) (table : List EmbeddingRow) :
    Except HTTPError (List SearchResult) :=
  match encode req.query with
  | .error e => .error ⟨500, "Database error: " ++ e⟩
  | .ok qvec =>
    match dbFail with
    | some e => .error ⟨500, "Database error: " ++ e⟩
    | none => .ok (searchExec dist defaultThreshold req qvec table)

/-- Projection of an `add_content` outcome onto the returned metadata field:
`some m` when the request succeeded with metadata `m`, `none` on failure. -/
def respMeta : Except HTTPError ContentResponse × StoreState → Option (Option Metadata)
  | (.ok r, _) => some r.metadata
  | (.error _, _) => none

/-! ## Concrete fixtures used by witnesses and counterexamples -/

/-- A minimal insert request. -/
def reqA1 : AddContentRequest := { user_id := "u1", content := "hello" }

/-- An insert request carrying an empty metadata document. -/
def reqEmptyMeta : AddContentRequest :=
  { user_id := "u1", content := "hi", metadata := some [] }

/-- An insert request carrying a non-empty metadata document. -/
def reqMeta1 : AddContentRequest :=
  { user_id := "u1", content := "hi", metadata := some [("k", "v")] }

/-- An empty store. -/
def st0 : StoreState := { table := [], nextId := 1, now := 0 }

/-- A store holding a single row with id 1. -/
def st4 : StoreState :=
  { table := [{ id := 1, user_id := "u1", content := "hello", source := none,
                metadata := none, embedding := [1], created := 0 }],
    nextId := 2, now := 5 }

/-- A stored row owned by alice. -/
def rowAlice : EmbeddingRow :=
  { id := 1, user_id := "alice", content := "the cat sat on the mat",
    source := none, metadata := none, embedding := [1], created := 0 }

/-- A stored row owned by bob. -/
def rowBob : EmbeddingRow :=
  { id := 2, user_id := "bob", content := "financial markets crashed today",
    source := none, metadata := none, embedding := [2], created := 0 }

/-- A search request with no filters. -/
def reqQ : SearchRequest := { query := "q" }

/-- A search request filtering on owner alice. -/
def reqAlice : SearchRequest := { query := "a feline on a rug", user_id := some "alice" }

/-! ## Theorems -/

/-- Claim C1, counterexample: an Embedder failure on insert surfaces as
exactly the same value as a storage failure with the same exception text —
HTTP 500 with detail `"Database error: boom"` — so the caller cannot
classify the error as an embedding error distinguishable from a storage
error. -/
theorem add_content_error_classes_collide :
    (add_content (fun _ => .error "boom") none reqA1 st0).1
      = (add_content (fun _ => .ok [1]) (some "boom") reqA1 st0).1
    ∧ (add_content (fun _ => .error "boom") none reqA1 st0).1
      = .error ⟨500, "Database error: boom"⟩ :=
  ⟨rfl, rfl⟩

/-- Claim C1, amended: an Embedder failure on insert or search surfaces as
HTTP 500 with detail `"Database error: " ++ exception text` — the same
classification as a storage failure, so the two are not distinguishable by
kind — and the core performs no fallback: the insert leaves the store
unchanged (no record with a substituted vector is persisted) and the search
returns no fabricated results. -/
theorem embed_failure_surfaces_without_fallback (encode : EncodeFn)
    (dbFail : Option String) (dist : DistFn) (defaultThreshold : Rat)
    (reqA : AddContentRequest) (reqS : SearchRequest) (st : StoreState)
    (table : List EmbeddingRow) (e1 e2 : String)
    (h1 : encode reqA.content = .error e1) (h2 : encode reqS.query = .error e2) :
    add_content encode dbFail reqA st = (.error ⟨500, "Database error: " ++ e1⟩, st)
    ∧ search_content encode dbFail dist defaultThreshold reqS table
      = .error ⟨500, "Database error: " ++ e2⟩ := by
  constructor
  · unfold add_content
    rw [h1]
  · unfold search_content
    rw [h2]

/-- Witness for the amended C1 theorem at a concrete failing embedder. -/
theorem embed_failure_surfaces_without_fallback_witness :
    add_content (fun _ => .error "model not loaded") none reqA1 st0
      = (.error ⟨500, "Database error: " ++ "model not loaded"⟩, st0)
    ∧ search_content (fun _ => .error "model not loaded") none (fun _ _ => 0)
        (7/10) reqQ [] = .error ⟨500, "Database error: " ++ "model not loaded"⟩ :=
  embed_failure_surfaces_without_fallback (fun _ => .error "model not loaded")
    none (fun _ _ => 0) (7/10) reqA1 reqQ st0 [] "model not loaded"
    "model not loaded" rfl rfl

/-- Claim C2, counterexample: two service conditions that differ only in
embedder readiness produce identical health responses, so the health result
does not report embedder readiness at all — in particular the embedder can
never be reported unhealthy while storage is healthy. -/
theorem health_check_ignores_embedder :
    health_check { embedderReady := false, dbReachable := true, dbError := "" }
      = health_check { embedderReady := true, dbReachable := true, dbError := "" }
    ∧ ({ embedderReady := false, dbReachable := true, dbError := "" } : ServiceEnv).embedderReady
      ≠ ({ embedderReady := true, dbReachable := true, dbError := "" } : ServiceEnv).embedderReady :=
  ⟨rfl, by decide⟩

/-- Claim C2, amended: the health result is a function of database
reachability (and the database exception text) alone; its `status` field is
`"healthy"` exactly when the database is reachable, and embedder readiness
is not reported. -/
theorem health_check_storage_only (env env2 : ServiceEnv)
    (h1 : env.dbReachable = env2.dbReachable) (h2 : env.dbError = env2.dbError) :
    health_check env = health_check env2
    ∧ ((health_check env).status = "healthy" ↔ env.dbReachable = true) := by
  constructor
  · unfold health_check
    rw [h1, h2]
  · rcases env with ⟨e, db, err⟩
    cases db <;> simp [health_check]

/-- Witness for the amended C2 theorem at concrete service conditions. -/
theorem health_check_storage_only_witness :
    health_check { embedderReady := true, dbReachable := false, dbError := "x" }
      = health_check { embedderReady := false, dbReachable := false, dbError := "x" }
    ∧ ((health_check { embedderReady := true, dbReachable := false, dbError := "x" }).status
        = "healthy"
       ↔ ({ embedderReady := true, dbReachable := false, dbError := "x" } : ServiceEnv).dbReachable
         = true) :=
  health_check_storage_only
    { embedderReady := true, dbReachable := false, dbError := "x" }
    { embedderReady := false, dbReachable := false, dbError := "x" } rfl rfl

/-- Claim C3, counterexample: an insert whose metadata is the empty document
`{}` succeeds but persists and returns `null` metadata, not the supplied
empty document — `if request.metadata` treats `{}` as falsy — so the
metadata is not returned verbatim. -/
theorem metadata_empty_not_verbatim :
    reqEmptyMeta.metadata = some []
    ∧ respMeta (add_content (fun _ => .ok [1]) none reqEmptyMeta st0) = some none :=
  ⟨rfl, rfl⟩

/-- Claim C3, amended: a non-empty metadata document supplied by the caller
is persisted and returned verbatim, uninterpreted; but an empty document is
coerced to `null` (exactly as omitted metadata is), because the handler
stores `json.dumps(request.metadata) if request.metadata else None`. -/
theorem add_content_metadata_verbatim_nonempty (encode : EncodeFn)
    (req : AddContentRequest) (st : StoreState) (vec : Vec) (m : Metadata)
    (h : encode req.content = .ok vec) (hm : req.metadata = some m)
    (hne : m ≠ []) :
    respMeta (add_content encode none req st) = some (some m)
    ∧ (add_content encode none req st).2.table.map (fun r => r.metadata)
      = st.table.map (fun r => r.metadata) ++ [some m]
    ∧ storedMetadata (some []) = none := by
  have hsm : storedMetadata req.metadata = some m := by
    rw [hm]
    unfold storedMetadata metaTruthy
    cases m with
    | nil => exact absurd rfl hne
    | cons a t => simp
  refine ⟨?_, ?_, rfl⟩
  · unfold add_content
    rw [h]
    simp [respMeta, hsm]
  · unfold add_content
    rw [h]
    simp [hsm]

/-- Witness for the amended C3 theorem at a concrete non-empty document. -/
theorem add_content_metadata_verbatim_nonempty_witness :
    respMeta (add_content (fun _ => .ok [1]) none reqMeta1 st0) = some (some [("k", "v")])
    ∧ (add_content (fun _ => .ok [1]) none reqMeta1 st0).2.table.map (fun r => r.metadata)
      = st0.table.map (fun r => r.metadata) ++ [some [("k", "v")]]
    ∧ storedMetadata (some []) = none :=
  add_content_metadata_verbatim_nonempty (fun _ => .ok [1]) reqMeta1 st0 [1]
    [("k", "v")] rfl rfl (by decide)

/-- Claim C4: deleting an id that is not present in the store yields the
distinct 404 "Content not found" outcome — not the generic 500 storage
error — and leaves the store unchanged.  In particular a second delete of an
already-deleted id, whose rows are all gone, takes this branch. -/
theorem remove_content_not_found (content_id : Nat) (st : StoreState)
    (h : ∀ r ∈ st.table, r.id ≠ content_id) :
    remove_content content_id st = (.error ⟨404, "Content not found"⟩, st) := by
  unfold remove_content
  have hc : st.table.countP (fun r => decide (r.id = content_id)) = 0 := by
    rw [List.countP_eq_zero]
    intro r hr
    simp [h r hr]
  simp [hc]

/-- Witness for C4: deleting absent id 2 from a store holding only id 1. -/
theorem remove_content_not_found_witness :
    remove_content 2 st4 = (.error ⟨404, "Content not found"⟩, st4) :=
  remove_content_not_found 2 st4 (by decide)

/-- Claim C9, counterexample: the insert response is not the full persisted
record — the `RETURNING` clause and `ContentResponse` omit the `embedding`
column (the record's `vector` field).  Two inserts of the same request whose
embedders produce different vectors persist different rows yet return
identical responses, so the response does not contain every record field. -/
theorem add_content_response_omits_vector :
    (add_content (fun _ => .ok [1]) none reqA1 st0).1
      = (add_content (fun _ => .ok [2]) none reqA1 st0).1
    ∧ (add_content (fun _ => .ok [1]) none reqA1 st0).2.table
      ≠ (add_content (fun _ => .ok [2]) none reqA1 st0).2.table :=
  ⟨rfl, by decide⟩

/-- Claim C9, amended: a successful insert returns the persisted record's
`id`, `user_id`, `content`, `source`, `metadata` and `created` fields
verbatim — the id generated by the store and the `created` timestamp
assigned by the server included — every field of the new row except its
stored vector, which the `RETURNING` clause and `ContentResponse` omit. -/
theorem add_content_returns_persisted (encode : EncodeFn)
    (req : AddContentRequest) (st : StoreState) (vec : Vec)
    (h : encode req.content = .ok vec) :
    ∃ row : EmbeddingRow,
      (add_content encode none req st).2.table = st.table ++ [row]
      ∧ (add_content encode none req st).1
        = .ok { id := toString row.id, user_id := row.user_id,
                content := row.content, source := row.source,
                metadata := row.metadata, created := isoformat row.created }
      ∧ row.id = st.nextId ∧ row.created = st.now
      ∧ row.user_id = req.user_id ∧ row.content = req.content
      ∧ row.source = req.source ∧ row.embedding = vec := by
  refine ⟨{ id := st.nextId, user_id := req.user_id, content := req.content,
            source := req.source, metadata := storedMetadata req.metadata,
            embedding := vec, created := st.now },
          ?_, ?_, rfl, rfl, rfl, rfl, rfl, rfl⟩
  · unfold add_content
    rw [h]
  · unfold add_content
    rw [h]

/-- Witness for the amended C9 theorem at a concrete request and embedder. -/
theorem add_content_returns_persisted_witness :
    ∃ row : EmbeddingRow,
      (add_content (fun _ => .ok [1]) none reqA1 st0).2.table = st0.table ++ [row]
      ∧ (add_content (fun _ => .ok [1]) none reqA1 st0).1
        = .ok { id := toString row.id, user_id := row.user_id,
                content := row.content, source := row.source,
                metadata := row.metadata, created := isoformat row.created }
      ∧ row.id = st0.nextId ∧ row.created = st0.now
      ∧ row.user_id = reqA1.user_id ∧ row.content = reqA1.content
      ∧ row.source = reqA1.source ∧ row.embedding = [1] :=
  add_content_returns_persisted (fun _ => .ok [1]) reqA1 st0 [1] rfl

/-- Evaluation helper: once the `WHERE` stage is computed, a search is the
sorted, truncated image of the matching rows. -/
theorem searchExec_of_filter_eq (dist : DistFn) (d : Rat) (req : SearchRequest)
    (qvec : Vec) (table rows : List EmbeddingRow)
    (hf : table.filter (fun r =>
        rowMatches req r
          && decide (dist r.embedding qvec ≤ effectiveThreshold d req)) = rows) :
    searchExec dist d req qvec table
      = applyLimit req.limit ((rows.map (toSearchResult dist qvec)).mergeSort resultLe) := by
  unfold searchExec
  rw [hf]

/-- Whatever survives the `LIMIT` clause was in the sorted result set. -/
theorem mem_applyLimit (limit : Option Nat) (xs : List SearchResult)
    (x : SearchResult) (hx : x ∈ applyLimit limit xs) : x ∈ xs := by
  cases limit with
  | none => exact hx
  | some n => exact List.take_subset n xs hx

/-- Every element of a search result set comes from a table row that matches
every supplied filter and lies within the effective distance threshold. -/
theorem mem_searchExec (dist : DistFn) (defaultThreshold : Rat)
    (req : SearchRequest) (qvec : Vec) (table : List EmbeddingRow)
    (x : SearchResult) (hx : x ∈ searchExec dist defaultThreshold req qvec table) :
    ∃ r ∈ table, rowMatches req r = true
      ∧ dist r.embedding qvec ≤ effectiveThreshold defaultThreshold req
      ∧ x = toSearchResult dist qvec r := by
  unfold searchExec at hx
  have h1 := mem_applyLimit _ _ _ hx
  rw [List.mem_mergeSort] at h1
  obtain ⟨r, hr, rfl⟩ := List.mem_map.mp h1
  rw [List.mem_filter] at hr
  obtain ⟨hrt, hp⟩ := hr
  rw [Bool.and_eq_true, decide_eq_true_eq] at hp
  exact ⟨r, hrt, hp.1, hp.2, rfl⟩

/-- Claim C5: every returned result lies within the effective distance
threshold — a record whose distance exceeds it is absent — and the effective
threshold is the request's `distance_threshold` when supplied, otherwise the
process-wide configured default. -/
theorem search_threshold_exclusion (dist : DistFn) (defaultThreshold : Rat)
    (req : SearchRequest) (qvec : Vec) (table : List EmbeddingRow)
    (x : SearchResult)
    (hx : x ∈ searchExec dist defaultThreshold req qvec table) :
    x.distance ≤ effectiveThreshold defaultThreshold req
    ∧ (∀ t, effectiveThreshold defaultThreshold
          { req with distance_threshold := some t } = t)
    ∧ effectiveThreshold defaultThreshold
        { req with distance_threshold := none } = defaultThreshold := by
  obtain ⟨r, _, _, hd, rfl⟩ :=
    mem_searchExec dist defaultThreshold req qvec table x hx
  exact ⟨hd, fun t => rfl, rfl⟩

/-- Witness for C5 on a one-row table with a constant distance function. -/
theorem search_threshold_exclusion_witness :
    (toSearchResult (fun _ _ => 0) [1] rowAlice).distance
      ≤ effectiveThreshold 1 reqQ
    ∧ (∀ t, effectiveThreshold 1 { reqQ with distance_threshold := some t } = t)
    ∧ effectiveThreshold 1 { reqQ with distance_threshold := none } = 1 :=
  search_threshold_exclusion (fun _ _ => 0) 1 reqQ [1] [rowAlice]
    (toSearchResult (fun _ _ => 0) [1] rowAlice)
    (by
      rw [searchExec_of_filter_eq (fun _ _ => 0) 1 reqQ [1] [rowAlice]
        [rowAlice] (by decide)]
      simp only [List.map_cons, List.map_nil, List.mergeSort_singleton]
      decide)

/-- Claim C6: search results are sorted ascending by the computed distance —
every earlier element's distance is at most every later element's. -/
theorem search_results_sorted (dist : DistFn) (defaultThreshold : Rat)
    (req : SearchRequest) (qvec : Vec) (table : List EmbeddingRow) :
    (searchExec dist defaultThreshold req qvec table).Pairwise
      (fun a b => a.distance ≤ b.distance) := by
  have hs : ((((table.filter (fun r =>
        rowMatches req r
          && decide (dist r.embedding qvec
                ≤ effectiveThreshold defaultThreshold req))).map
      (toSearchResult dist qvec)).mergeSort resultLe)).Pairwise
        (fun a b => resultLe a b = true) :=
    List.sorted_mergeSort
      (fun a b c hab hbc => by
        simp only [resultLe, decide_eq_true_eq] at hab hbc ⊢
        exact le_trans hab hbc)
      (fun a b => by
        simp only [resultLe, Bool.or_eq_true, decide_eq_true_eq]
        exact le_total a.distance b.distance)
      _
  have hs2 : ((((table.filter (fun r =>
        rowMatches req r
          && decide (dist r.embedding qvec
                ≤ effectiveThreshold defaultThreshold req))).map
      (toSearchResult dist qvec)).mergeSort resultLe)).Pairwise
        (fun a b => a.distance ≤ b.distance) :=
    hs.imp (fun h => by
      simpa only [resultLe, decide_eq_true_eq] using h)
  unfold searchExec
  cases hl : req.limit with
  | none => simpa [applyLimit] using hs2
  | some n =>
    simp only [applyLimit]
    exact List.Pairwise.sublist (List.take_sublist n _) hs2

/-- Claim C7: a validated limit (supplied in `[1, 100]`) bounds the result
count even when more qualifying records exist, and an omitted limit takes
the Pydantic default value 10. -/
theorem search_limit_bound (dist : DistFn) (defaultThreshold : Rat)
    (req : SearchRequest) (qvec : Vec) (table : List EmbeddingRow) (l : Nat)
    (h1 : req.limit = some l) (h2 : 1 ≤ l) (h3 : l ≤ 100) :
    (searchExec dist defaultThreshold req qvec table).length ≤ l
    ∧ (∀ q : String, ({ query := q } : SearchRequest).limit = some 10) := by
  refine ⟨?_, fun q => rfl⟩
  unfold searchExec
  rw [h1]
  simp only [applyLimit]
  exact List.length_take_le l _

/-- Witness for C7 at a concrete request with limit 5. -/
theorem search_limit_bound_witness :
    (searchExec (fun _ _ => 0) (7/10) { query := "q", limit := some 5 }
      [1] [rowAlice, rowBob]).length ≤ 5
    ∧ (∀ q : String, ({ query := q } : SearchRequest).limit = some 10) :=
  search_limit_bound (fun _ _ => 0) (7/10) { query := "q", limit := some 5 }
    [1] [rowAlice, rowBob] 5 rfl (by decide) (by decide)

/-- Claim C8: under a supplied non-empty owner filter, every returned record
carries exactly that owner; and because supplied filters compose by logical
AND, a simultaneously supplied non-empty source filter is also satisfied by
every returned record. -/
theorem search_owner_filter (dist : DistFn) (defaultThreshold : Rat)
    (req : SearchRequest) (qvec : Vec) (table : List EmbeddingRow)
    (u : String) (x : SearchResult)
    (hu : req.user_id = some u) (hne : u ≠ "")
    (hx : x ∈ searchExec dist defaultThreshold req qvec table) :
    x.user_id = u
    ∧ (∀ s, req.source = some s → s ≠ "" → x.source = some s) := by
  obtain ⟨r, hrt, hm, hd, rfl⟩ :=
    mem_searchExec dist defaultThreshold req qvec table x hx
  unfold rowMatches at hm
  simp only [hu, Bool.and_eq_true] at hm
  obtain ⟨⟨⟨hA, hB⟩, _⟩, _⟩ := hm
  rw [if_neg hne, decide_eq_true_eq] at hA
  refine ⟨by simpa [toSearchResult] using hA, ?_⟩
  intro s hs hsne
  simp only [hs] at hB
  rw [if_neg hsne, decide_eq_true_eq] at hB
  simpa [toSearchResult] using hB

/-- Witness for C8: with owner filter "alice" over a two-owner table, the
returned record is alice's. -/
theorem search_owner_filter_witness :
    (toSearchResult (fun _ _ => 0) [1] rowAlice).user_id = "alice"
    ∧ (∀ s, reqAlice.source = some s → s ≠ ""
        → (toSearchResult (fun _ _ => 0) [1] rowAlice).source = some s) :=
  search_owner_filter (fun _ _ => 0) 1 reqAlice [1] [rowAlice, rowBob]
    "alice" (toSearchResult (fun _ _ => 0) [1] rowAlice) rfl (by decide)
    (by
      rw [searchExec_of_filter_eq (fun _ _ => 0) 1 reqAlice [1]
        [rowAlice, rowBob] [rowAlice] (by decide)]
      simp only [List.map_cons, List.map_nil, List.mergeSort_singleton]
      decide)

/-- An empty-string owner filter builds the same `WHERE` predicate as an
omitted one (`if request.user_id:` is false for `""`). -/
theorem rowMatches_user_id_empty (req : SearchRequest) (r : EmbeddingRow) :
    rowMatches { req with user_id := some "" } r
      = rowMatches { req with user_id := none } r := by
  simp [rowMatches]

/-- An empty-string source filter builds the same `WHERE` predicate as an
omitted one (`if request.source:` is false for `""`). -/
theorem rowMatches_source_empty (req : SearchRequest) (r : EmbeddingRow) :
    rowMatches { req with source := some "" } r
      = rowMatches { req with source := none } r := by
  simp [rowMatches]

/-- Two requests whose filters agree pointwise and that share limit and
threshold produce the same SQL result. -/
theorem searchExec_congr (dist : DistFn) (d : Rat) (req1 req2 : SearchRequest)
    (qvec : Vec) (table : List EmbeddingRow)
    (hm : ∀ r, rowMatches req1 r = rowMatches req2 r)
    (hl : req1.limit = req2.limit)
    (ht : req1.distance_threshold = req2.distance_threshold) :
    searchExec dist d req1 qvec table = searchExec dist d req2 qvec table := by
  have hth : effectiveThreshold d req1 = effectiveThreshold d req2 := by
    unfold effectiveThreshold
    rw [ht]
  unfold searchExec
  rw [hl, hth, List.filter_congr (fun r _ => by rw [hm r])]

/-- Two requests with the same query text, pointwise-equal filters, and the
same limit and threshold get the same response from the search handler. -/
theorem search_content_congr (encode : EncodeFn) (dbFail : Option String)
    (dist : DistFn) (d : Rat) (req1 req2 : SearchRequest)
    (table : List EmbeddingRow)
    (hq : req1.query = req2.query)
    (hm : ∀ r, rowMatches req1 r = rowMatches req2 r)
    (hl : req1.limit = req2.limit)
    (ht : req1.distance_threshold = req2.distance_threshold) :
    search_content encode dbFail dist d req1 table
      = search_content encode dbFail dist d req2 table := by
  unfold search_content
  rw [hq]
  cases encode req2.query with
  | error e => rfl
  | ok qvec =>
    cases dbFail with
    | some e => rfl
    | none => exact congrArg Except.ok (searchExec_congr dist d req1 req2 qvec table hm hl ht)

/-- Claim C10: supplying `user_id` or `source` as the empty string is
exactly equivalent to omitting the filter — the handler adds a clause only
when the supplied value is truthy, so the response is identical. -/
theorem search_empty_filter_no_constraint (encode : EncodeFn)
    (dbFail : Option String) (dist : DistFn) (d : Rat) (req : SearchRequest)
    (table : List EmbeddingRow) :
    search_content encode dbFail dist d { req with user_id := some "" } table
      = search_content encode dbFail dist d { req with user_id := none } table
    ∧ search_content encode dbFail dist d { req with source := some "" } table
      = search_content encode dbFail dist d { req with source := none } table :=
  ⟨search_content_congr encode dbFail dist d _ _ table rfl
      (fun r => rowMatches_user_id_empty req r) rfl rfl,
   search_content_congr encode dbFail dist d _ _ table rfl
      (fun r => rowMatches_source_empty req r) rfl rfl⟩
